import Mathlib

/-
Verification of the Mini E-Commerce FastAPI backend (app/main.py) against its
natural-language specification.  The HTTP layer of app/main.py is embedded
shallowly: the database is an explicit state record, each endpoint is a
function from the state and the authenticated requester to a response paired
with the successor state.  The modules app/crud.py, app/auth.py, app/models.py
and app/schemas.py are not part of the available sources; every definition
standing in for one of them is marked `Modelled from the spec:` and follows the
specification text for that operation.
-/

namespace ECom

/-- A stored user row (models.User): id, unique email, hashed password, role in
customer / seller / admin. -/
structure User where
  id : Nat
  email : String
  password : String
  role : String
deriving Repr, DecidableEq

/-- Request body for POST /users/ (schemas.UserCreate). -/
structure UserCreate where
  email : String
  password : String
deriving Repr, DecidableEq

/-- Request body for PUT /users/id (schemas.UserUpdate): optional fields. -/
structure UserUpdate where
  email : Option String
  password : Option String
  role : Option String
deriving Repr, DecidableEq

/-- A stored address row (models.Address). -/
structure Address where
  id : Nat
  user_id : Nat
  street : String
deriving Repr, DecidableEq

/-- Request body for POST /addresses/ (schemas.AddressCreate). -/
structure AddressCreate where
  street : String
deriving Repr, DecidableEq

/-- Request body for product creation and update (schemas.ProductBase); the
seller_id field may be supplied by the caller. -/
structure ProductBase where
  name : String
  price : Int
  category_id : Option Nat
  seller_id : Option Nat
deriving Repr, DecidableEq

/-- A stored product row (models.Product); seller_id is null for platform
products. -/
structure Product where
  id : Nat
  name : String
  price : Int
  category_id : Option Nat
  seller_id : Option Nat
deriving Repr, DecidableEq

/-- A stored cart row (models.Cart): one cart per user, created lazily. -/
structure Cart where
  id : Nat
  user_id : Nat
deriving Repr, DecidableEq

/-- Request body for POST /cart/user_id/items (schemas.CartItemBase). -/
structure CartItemBase where
  product_id : Nat
  quantity : Nat
deriving Repr, DecidableEq

/-- A stored cart item row (models.CartItem). -/
structure CartItem where
  id : Nat
  cart_id : Nat
  product_id : Nat
  quantity : Nat
deriving Repr, DecidableEq

/-- An immutable order line item (models.OrderItem), snapshotted from a cart
item at order creation. -/
structure OrderItem where
  product_id : Nat
  quantity : Nat
deriving Repr, DecidableEq

/-- A stored order row (models.Order) with its immutable line items. -/
structure Order where
  id : Nat
  user_id : Nat
  items : List OrderItem
  status : String
deriving Repr, DecidableEq

/-- A stored wishlist row (models.Wishlist). -/
structure WishlistEntry where
  id : Nat
  user_id : Nat
  product_id : Nat
deriving Repr, DecidableEq

/-- A decoded access token: payload user_id, email, role plus the expiry
instant in seconds. -/
structure Token where
  user_id : Nat
  email : String
  role : String
  expires_at : Nat
deriving Repr, DecidableEq

/-- The persistent state: one list per table, plus a fresh-id counter standing
for the autoincrement primary keys. -/
structure DB where
  users : List User
  addresses : List Address
  products : List Product
  carts : List Cart
  cart_items : List CartItem
  orders : List Order
  wishlist : List WishlistEntry
  next_id : Nat
deriving Repr, DecidableEq

/-- An HTTP response: a payload on success, or a status code with a detail
message (HTTPException). -/
inductive Resp (α : Type) where
  | ok : α → Resp α
  | err : Nat → String → Resp α
deriving Repr, DecidableEq

/-- Whether a response is an error response. -/
def Resp.isErr {α : Type} : Resp α → Bool
  | .ok _ => false
  | .err _ _ => true

/-- The body of a request handler: either a payload with the successor state,
or a raised HTTPException (status code, detail). -/
abbrev Handler (α : Type) : Type := Except (Nat × String) (α × DB)

/-- Modelled from the spec: the request-scoped persistence session.  The
modules app/database.py and app/crud.py (which hold the session and commit
handling) are absent from the sources; per the concurrency and error-handling
sections of the spec every request is a single all-or-nothing persistence
transaction, committed on the success exit and released (rolled back) on every
error exit path, so an error response restores the pre-request state. -/
def runRequest {α : Type} (db : DB) (h : Handler α) : Resp α × DB :=
  match h with
  | .ok (a, db1) => (Resp.ok a, db1)
  | .error (code, msg) => (Resp.err code msg, db)

namespace crud

/-- Modelled from the spec: password hashing inside app/crud.py (absent from
the sources) — the spec says passwords are stored hashed; the hash is an
abstract injective tagging of the plaintext. -/
def hash_password (p : String) : String :=
  String.append "hashed:" p

/-- Modelled from the spec: crud.verify_password (app/crud.py is absent) —
checks a plaintext password against the stored hash. -/
def verify_password (plain : String) (hashed : String) : Bool :=
  hash_password plain == hashed

/-- Modelled from the spec: crud.get_user_by_email — looks up the stored user
with the given (unique) email. -/
def get_user_by_email (db : DB) (email : String) : Option User :=
  db.users.find? (fun u => u.email == email)

/-- Modelled from the spec: crud.get_user — looks up a user by id. -/
def get_user (db : DB) (user_id : Nat) : Option User :=
  db.users.find? (fun u => u.id == user_id)

/-- Modelled from the spec: crud.create_user — stores the password hashed and
the default role customer, with a fresh id. -/
def create_user (db : DB) (user : UserCreate) : User × DB :=
  let u : User :=
    { id := db.next_id, email := user.email,
      password := hash_password user.password, role := "customer" }
  (u, { db with users := db.users ++ [u], next_id := db.next_id + 1 })

/-- Modelled from the spec: crud.update_user — applies the optional fields of
the update to the stored user. -/
def update_user (db : DB) (user : User) (update : UserUpdate) : User × DB :=
  let u : User :=
    { user with
      email := update.email.getD user.email,
      password := (update.password.map hash_password).getD user.password,
      role := update.role.getD user.role }
  (u, { db with users := db.users.map (fun v => if v.id == user.id then u else v) })

/-- Modelled from the spec: crud.del_user — removes a user by id, returning
the removed row, or none when absent. -/
def del_user (db : DB) (user_id : Nat) : Option User × DB :=
  match db.users.find? (fun u => u.id == user_id) with
  | none => (none, db)
  | some u => (some u, { db with users := db.users.filter (fun v => v.id != user_id) })

/-- Modelled from the spec: crud.create_address — stores a new address for the
given user. -/
def create_address (db : DB) (user_id : Nat) (address : AddressCreate) : Address × DB :=
  let a : Address := { id := db.next_id, user_id := user_id, street := address.street }
  (a, { db with addresses := db.addresses ++ [a], next_id := db.next_id + 1 })

/-- Modelled from the spec: crud.get_cart — the cart of the given user, if it
exists (one cart per user). -/
def get_cart (db : DB) (user_id : Nat) : Option Cart :=
  db.carts.find? (fun c => c.user_id == user_id)

/-- Modelled from the spec: crud.create_cart — lazily creates an empty cart
for the given user. -/
def create_cart (db : DB) (user_id : Nat) : Cart × DB :=
  let c : Cart := { id := db.next_id, user_id := user_id }
  (c, { db with carts := db.carts ++ [c], next_id := db.next_id + 1 })

/-- Raises the quantity of the first cart item row matching the given cart and
product by q, leaving every other row unchanged (the ORM updates exactly the
row the lookup returned). -/
def bump_first (cart_id : Nat) (product_id : Nat) (q : Nat) :
    List CartItem → List CartItem
  | [] => []
  | i :: rest =>
    if i.cart_id == cart_id && i.product_id == product_id then
      { i with quantity := i.quantity + q } :: rest
    else
      i :: bump_first cart_id product_id q rest

/-- Modelled from the spec: crud.add_cart_item — the spec requires summed
quantities: if the product is already in the cart the quantity is summed into
the existing line item, otherwise a new row is inserted. -/
def add_cart_item (db : DB) (cart_id : Nat) (item : CartItemBase) : CartItem × DB :=
  match db.cart_items.find?
      (fun i => i.cart_id == cart_id && i.product_id == item.product_id) with
  | some existing =>
    ({ existing with quantity := existing.quantity + item.quantity },
     { db with cart_items := bump_first cart_id item.product_id item.quantity db.cart_items })
  | none =>
    let row : CartItem :=
      { id := db.next_id, cart_id := cart_id,
        product_id := item.product_id, quantity := item.quantity }
    (row, { db with cart_items := db.cart_items ++ [row], next_id := db.next_id + 1 })

/-- Modelled from the spec: crud.update_cart_item — sets the quantity of the
cart item with the given id, returning the updated row, or none when absent. -/
def update_cart_item (db : DB) (cart_item_id : Nat) (quantity : Nat) :
    Option CartItem × DB :=
  match db.cart_items.find? (fun i => i.id == cart_item_id) with
  | none => (none, db)
  | some item =>
    let updated : CartItem := { item with quantity := quantity }
    (some updated,
     { db with cart_items :=
        db.cart_items.map (fun i => if i.id == cart_item_id then updated else i) })

/-- Modelled from the spec: crud.remove_cart_item — removes the cart item with
the given id, returning the removed row, or none when absent. -/
def remove_cart_item (db : DB) (cart_item_id : Nat) : Option CartItem × DB :=
  match db.cart_items.find? (fun i => i.id == cart_item_id) with
  | none => (none, db)
  | some item =>
    (some item, { db with cart_items := db.cart_items.filter (fun i => i.id != cart_item_id) })

/-- Modelled from the spec: crud.create_order_from_cart_for_user — an empty or
absent cart fails with BadRequest; otherwise the cart items are snapshotted
into an immutable order with status placed and the cart is emptied atomically
with order creation. -/
def create_order_from_cart_for_user (db : DB) (user_id : Nat) :
    Except (Nat × String) (Order × DB) :=
  match get_cart db user_id with
  | none => .error (400, "Cart is empty")
  | some cart =>
    let items := db.cart_items.filter (fun i => i.cart_id == cart.id)
    if items.isEmpty then
      .error (400, "Cart is empty")
    else
      let order : Order :=
        { id := db.next_id, user_id := user_id,
          items := items.map (fun i => { product_id := i.product_id, quantity := i.quantity }),
          status := "placed" }
      .ok (order,
        { db with orders := db.orders ++ [order],
                  cart_items := db.cart_items.filter (fun i => i.cart_id != cart.id),
                  next_id := db.next_id + 1 })

/-- Modelled from the spec: crud.get_orders — every order of the given user. -/
def get_orders (db : DB) (user_id : Nat) : List Order :=
  db.orders.filter (fun o => o.user_id == user_id)

/-- Modelled from the spec: crud.remove_from_wishlist — removes the wishlist
row with the given id, returning the removed row, or none when absent. -/
def remove_from_wishlist (db : DB) (wishlist_id : Nat) : Option WishlistEntry × DB :=
  match db.wishlist.find? (fun w => w.id == wishlist_id) with
  | none => (none, db)
  | some w => (some w, { db with wishlist := db.wishlist.filter (fun v => v.id != wishlist_id) })

/-- Modelled from the spec: crud.create_product — stores a new product; the
stored seller_id is the explicit seller_id argument the endpoint passes
(requester id for sellers, null otherwise). -/
def create_product (db : DB) (product : ProductBase) (seller_id : Option Nat) :
    Product × DB :=
  let p : Product :=
    { id := db.next_id, name := product.name, price := product.price,
      category_id := product.category_id, seller_id := seller_id }
  (p, { db with products := db.products ++ [p], next_id := db.next_id + 1 })

/-- Modelled from the spec: crud.update_product — with a seller filter only a
product owned by that seller matches; with no filter (admin caller) any
product matches; returns none when nothing matches, indistinguishably for an
absent product and a product of another seller. -/
def update_product (db : DB) (product_id : Nat) (update : ProductBase)
    (seller_id : Option Nat) : Option Product × DB :=
  match db.products.find? (fun p => p.id == product_id &&
      (match seller_id with
       | none => true
       | some s => p.seller_id == some s)) with
  | none => (none, db)
  | some p =>
    let updated : Product :=
      { p with name := update.name, price := update.price, category_id := update.category_id }
    (some updated,
     { db with products := db.products.map (fun q => if q.id == p.id then updated else q) })

/-- Modelled from the spec: crud.delete_product — an admin deletes any
product; a seller deletes only a product whose seller_id is their own id;
returns none otherwise, indistinguishably for absent and foreign products. -/
def delete_product (db : DB) (product_id : Nat) (user_id : Nat) (user_role : String) :
    Option Product × DB :=
  match db.products.find? (fun p => p.id == product_id &&
      (user_role == "admin" || p.seller_id == some user_id)) with
  | none => (none, db)
  | some p =>
    (some p, { db with products := db.products.filter (fun q => q.id != p.id) })

end crud

namespace auth

/-- Modelled from the spec: auth.create_access_token (app/auth.py is absent
from the sources) — a token carrying user_id, email and role, expiring the
given number of seconds after the issue instant. -/
def create_access_token (user_id : Nat) (email : String) (role : String)
    (now : Nat) (expires_seconds : Nat) : Token :=
  { user_id := user_id, email := email, role := role, expires_at := now + expires_seconds }

end auth

/-- The owner of the cart a cart item belongs to (the item.cart relationship
followed by user_id). -/
def cart_owner (db : DB) (cart_id : Nat) : Option Nat :=
  (db.carts.find? (fun c => c.id == cart_id)).map (fun c => c.user_id)

namespace api

/-- POST /users/ handler body (main.py lines 29 to 34). -/
def create_user_core (db : DB) (user : UserCreate) : Handler User :=
  match crud.get_user_by_email db user.email with
  | some _ => .error (400, "Email already registered")
  | none =>
    let r := crud.create_user db user
    .ok (r.1, r.2)

/-- POST /users/ (main.py lines 29 to 34). -/
def create_user (db : DB) (user : UserCreate) : Resp User × DB :=
  runRequest db (create_user_core db user)

/-- PUT /users/user_id handler body (main.py lines 47 to 54): ownership or
admin check first, then lookup, then update. -/
def update_user_core (db : DB) (current_user : User) (user_id : Nat)
    (update : UserUpdate) : Handler User :=
  if user_id != current_user.id && current_user.role != "admin" then
    .error (403, "You are not authorized to modify this user")
  else
    match crud.get_user db user_id with
    | none => .error (404, "User not found")
    | some db_user =>
      let r := crud.update_user db db_user update
      .ok (r.1, r.2)

/-- PUT /users/user_id (main.py lines 47 to 54). -/
def update_user (db : DB) (current_user : User) (user_id : Nat)
    (update : UserUpdate) : Resp User × DB :=
  runRequest db (update_user_core db current_user user_id update)

/-- DELETE /users/user_id handler body (main.py lines 56 to 63). -/
def delete_user_core (db : DB) (current_user : User) (user_id : Nat) : Handler User :=
  if user_id != current_user.id && current_user.role != "admin" then
    .error (403, "You are not authorized to delete this user")
  else
    let r := crud.del_user db user_id
    match r.1 with
    | none => .error (404, "User not found")
    | some u => .ok (u, r.2)

/-- DELETE /users/user_id (main.py lines 56 to 63). -/
def delete_user (db : DB) (current_user : User) (user_id : Nat) : Resp User × DB :=
  runRequest db (delete_user_core db current_user user_id)

/-- POST /addresses/ handler body (main.py lines 83 to 87). -/
def add_address_core (db : DB) (current_user : User) (user_id : Nat)
    (address : AddressCreate) : Handler Address :=
  if user_id != current_user.id && current_user.role != "admin" then
    .error (403, "You are not authorized for this action")
  else
    let r := crud.create_address db user_id address
    .ok (r.1, r.2)

/-- POST /addresses/ (main.py lines 83 to 87). -/
def add_address (db : DB) (current_user : User) (user_id : Nat)
    (address : AddressCreate) : Resp Address × DB :=
  runRequest db (add_address_core db current_user user_id address)

/-- POST /login handler body (main.py lines 117 to 126): unknown email or
wrong password give 401; otherwise a 60-minute token with payload user_id,
email, role. -/
def login_core (db : DB) (now : Nat) (username : String) (password : String) :
    Handler Token :=
  match crud.get_user_by_email db username with
  | none => .error (401, "Incorrect email or password")
  | some user =>
    if crud.verify_password password user.password then
      .ok (auth.create_access_token user.id user.email user.role now (60 * 60), db)
    else
      .error (401, "Incorrect email or password")

/-- POST /login (main.py lines 117 to 126). -/
def login (db : DB) (now : Nat) (username : String) (password : String) :
    Resp Token × DB :=
  runRequest db (login_core db now username password)

/-- POST /products/ handler body (main.py lines 163 to 168): a seller has
their own id forced as seller_id; any other requester yields a null
seller_id. -/
def create_product_core (db : DB) (current_user : User) (product : ProductBase) :
    Handler Product :=
  let product :=
    if current_user.role == "seller" then
      { product with seller_id := some current_user.id }
    else product
  let r := crud.create_product db product
    (if current_user.role == "seller" then some current_user.id else none)
  .ok (r.1, r.2)

/-- POST /products/ (main.py lines 163 to 168). -/
def create_product (db : DB) (current_user : User) (product : ProductBase) :
    Resp Product × DB :=
  runRequest db (create_product_core db current_user product)

/-- PUT /seller/products/product_id handler body (main.py lines 177 to 192):
the crud update is filtered by the requester id for sellers and unfiltered for
admins; a none result, for absence or foreign ownership alike, gives 404. -/
def seller_update_product_core (db : DB) (seller : User) (product_id : Nat)
    (product_update : ProductBase) : Handler Product :=
  let r := crud.update_product db product_id product_update
    (if seller.role == "seller" then some seller.id else none)
  match r.1 with
  | none => .error (404, "Product not found or not authorized")
  | some p => .ok (p, r.2)

/-- PUT /seller/products/product_id (main.py lines 177 to 192). -/
def seller_update_product (db : DB) (seller : User) (product_id : Nat)
    (product_update : ProductBase) : Resp Product × DB :=
  runRequest db (seller_update_product_core db seller product_id product_update)

/-- DELETE /seller/products/product_id handler body (main.py lines 194 to
203). -/
def seller_delete_product_core (db : DB) (seller : User) (product_id : Nat) :
    Handler String :=
  let r := crud.delete_product db product_id seller.id seller.role
  match r.1 with
  | none => .error (404, "Product not found or not authorized")
  | some _ => .ok ("Product deleted successfully", r.2)

/-- DELETE /seller/products/product_id (main.py lines 194 to 203). -/
def seller_delete_product (db : DB) (seller : User) (product_id : Nat) :
    Resp String × DB :=
  runRequest db (seller_delete_product_core db seller product_id)

/-- GET /cart/user_id handler body (main.py lines 218 to 225): ownership or
admin check against the path parameter, then lookup and lazy creation keyed on
current_user.id, not on the path parameter. -/
def get_cart_core (db : DB) (current_user : User) (user_id : Nat) : Handler Cart :=
  if current_user.id != user_id && current_user.role != "admin" then
    .error (403, "You are not authorized to access this cart")
  else
    match crud.get_cart db current_user.id with
    | some cart => .ok (cart, db)
    | none =>
      let r := crud.create_cart db current_user.id
      .ok (r.1, r.2)

/-- GET /cart/user_id (main.py lines 218 to 225). -/
def get_cart (db : DB) (current_user : User) (user_id : Nat) : Resp Cart × DB :=
  runRequest db (get_cart_core db current_user user_id)

/-- POST /cart/user_id/items handler body (main.py lines 227 to 234): same
check as GET /cart/user_id, then the item is added to the cart keyed on
current_user.id. -/
def add_item_to_cart_core (db : DB) (current_user : User) (user_id : Nat)
    (item : CartItemBase) : Handler CartItem :=
  if current_user.id != user_id && current_user.role != "admin" then
    .error (403, "You are not authorized to access this cart")
  else
    match crud.get_cart db current_user.id with
    | some cart =>
      let r := crud.add_cart_item db cart.id item
      .ok (r.1, r.2)
    | none =>
      let rc := crud.create_cart db current_user.id
      let r := crud.add_cart_item rc.2 rc.1.id item
      .ok (r.1, r.2)

/-- POST /cart/user_id/items (main.py lines 227 to 234). -/
def add_item_to_cart (db : DB) (current_user : User) (user_id : Nat)
    (item : CartItemBase) : Resp CartItem × DB :=
  runRequest db (add_item_to_cart_core db current_user user_id item)

/-- PUT /cart/items/cart_item_id handler body (main.py lines 236 to 243): the
crud update runs first, the ownership or admin check only afterwards, on the
already updated row. -/
def update_cart_item_core (db : DB) (current_user : User) (cart_item_id : Nat)
    (quantity : Nat) : Handler CartItem :=
  let r := crud.update_cart_item db cart_item_id quantity
  match r.1 with
  | none => .error (404, "Cart item not found")
  | some item =>
    if cart_owner r.2 item.cart_id != some current_user.id && current_user.role != "admin" then
      .error (403, "Not allowed to modify this item")
    else
      .ok (item, r.2)

/-- PUT /cart/items/cart_item_id (main.py lines 236 to 243). -/
def update_cart_item (db : DB) (current_user : User) (cart_item_id : Nat)
    (quantity : Nat) : Resp CartItem × DB :=
  runRequest db (update_cart_item_core db current_user cart_item_id quantity)

/-- DELETE /cart/items/cart_item_id handler body (main.py lines 245 to 254):
the removal runs first, the ownership or admin check only afterwards; the
second crud removal on the success path is a no-op on the already removed
row. -/
def delete_cart_item_core (db : DB) (current_user : User) (cart_item_id : Nat) :
    Handler String :=
  let r := crud.remove_cart_item db cart_item_id
  match r.1 with
  | none => .error (404, "Cart item not found")
  | some item =>
    if cart_owner r.2 item.cart_id != some current_user.id && current_user.role != "admin" then
      .error (403, "Not allowed to delete this item")
    else
      let r2 := crud.remove_cart_item r.2 cart_item_id
      .ok ("Cart Item Deleted Successfully", r2.2)

/-- DELETE /cart/items/cart_item_id (main.py lines 245 to 254). -/
def delete_cart_item (db : DB) (current_user : User) (cart_item_id : Nat) :
    Resp String × DB :=
  runRequest db (delete_cart_item_core db current_user cart_item_id)

/-- POST /orders/ handler body (main.py lines 257 to 265): ownership or admin
check against the query parameter, then the order is created from the cart of
current_user.id, not of the query parameter. -/
def create_order_from_cart_core (db : DB) (current_user : User) (user_id : Nat) :
    Handler Order :=
  if user_id != current_user.id && current_user.role != "admin" then
    .error (403, "Not authorized")
  else
    match crud.create_order_from_cart_for_user db current_user.id with
    | .error e => .error e
    | .ok (o, db1) => .ok (o, db1)

/-- POST /orders/ (main.py lines 257 to 265). -/
def create_order_from_cart (db : DB) (current_user : User) (user_id : Nat) :
    Resp Order × DB :=
  runRequest db (create_order_from_cart_core db current_user user_id)

/-- GET /orders/user_id handler body (main.py lines 267 to 271): ownership or
admin check against the path parameter, then the orders of current_user.id are
returned, not those of the path parameter. -/
def get_orders_core (db : DB) (current_user : User) (user_id : Nat) :
    Handler (List Order) :=
  if user_id != current_user.id && current_user.role != "admin" then
    .error (403, "Not authorized")
  else
    .ok (crud.get_orders db current_user.id, db)

/-- GET /orders/user_id (main.py lines 267 to 271). -/
def get_orders (db : DB) (current_user : User) (user_id : Nat) :
    Resp (List Order) × DB :=
  runRequest db (get_orders_core db current_user user_id)

/-- DELETE /wishlist/wishlist_id handler body (main.py lines 294 to 302): the
removal runs first, the ownership or admin check only afterwards. -/
def remove_wishlist_endpoint_core (db : DB) (current_user : User) (wishlist_id : Nat) :
    Handler Unit :=
  let r := crud.remove_from_wishlist db wishlist_id
  match r.1 with
  | none => .error (404, "Wishlist item not found")
  | some item =>
    if item.user_id != current_user.id && current_user.role != "admin" then
      .error (403, "Not allowed")
    else
      .ok ((), r.2)

/-- DELETE /wishlist/wishlist_id (main.py lines 294 to 302). -/
def remove_wishlist_endpoint (db : DB) (current_user : User) (wishlist_id : Nat) :
    Resp Unit × DB :=
  runRequest db (remove_wishlist_endpoint_core db current_user wishlist_id)

end api

/-
Concrete fixtures used by witnesses and counterexamples.
-/

/-- A concrete admin user. -/
def admin1 : User := { id := 1, email := "a@x.com", password := "h", role := "admin" }

/-- A concrete customer user. -/
def cu2 : User := { id := 2, email := "b@x.com", password := "h", role := "customer" }

/-- The empty database state. -/
def db0 : DB :=
  { users := [], addresses := [], products := [], carts := [], cart_items := [],
    orders := [], wishlist := [], next_id := 1 }

/-- A state with a cart, a cart item and a wishlist entry owned by user 1. -/
def db_c2 : DB :=
  { users := [admin1, cu2], addresses := [], products := [],
    carts := [{ id := 10, user_id := 1 }],
    cart_items := [{ id := 11, cart_id := 10, product_id := 7, quantity := 2 }],
    orders := [],
    wishlist := [{ id := 12, user_id := 1, product_id := 7 }],
    next_id := 40 }

/-- A state where both user 1 (the admin) and user 2 own a cart and an order. -/
def db_c3 : DB :=
  { users := [admin1, cu2], addresses := [], products := [],
    carts := [{ id := 10, user_id := 1 }, { id := 20, user_id := 2 }],
    cart_items := [],
    orders := [{ id := 30, user_id := 1, items := [], status := "placed" },
               { id := 31, user_id := 2, items := [], status := "placed" }],
    wishlist := [], next_id := 40 }

/-
General lemmas about the request runner.
-/

/-- A request whose response is an error leaves the state unchanged: the
request transaction is rolled back on every error exit. -/
theorem runRequest_isErr_eq {α : Type} (db : DB) (h : Handler α) :
    (runRequest db h).1.isErr = true → (runRequest db h).2 = db := by
  cases h with
  | ok p =>
    obtain ⟨a, db1⟩ := p
    simp [runRequest, Resp.isErr]
  | error e =>
    intro _
    obtain ⟨code, msg⟩ := e
    simp [runRequest]

/-- C2: an error response (403, 404 or 400) from a cart-item update, a
cart-item delete, or a wishlist delete leaves the persisted state exactly as
before the request: the whole request is one all-or-nothing transaction, so
the mutation the handler performs before its ownership check is rolled back
on the error exit. -/
theorem c2_error_leaves_state_unchanged (db : DB) (cu : User) (cid q wid : Nat) :
    ((api.update_cart_item db cu cid q).1.isErr = true →
        (api.update_cart_item db cu cid q).2 = db) ∧
    ((api.delete_cart_item db cu cid).1.isErr = true →
        (api.delete_cart_item db cu cid).2 = db) ∧
    ((api.remove_wishlist_endpoint db cu wid).1.isErr = true →
        (api.remove_wishlist_endpoint db cu wid).2 = db) :=
  ⟨runRequest_isErr_eq db _, runRequest_isErr_eq db _, runRequest_isErr_eq db _⟩

/-- C2 witness: user 2 (a non-owner customer) updates, deletes and wishlist-
deletes rows owned by user 1; each call is refused with 403 and the state is
unchanged, although the handler mutated the row before its ownership check. -/
theorem c2_witness :
    (api.update_cart_item db_c2 cu2 11 5).1.isErr = true ∧
    (api.update_cart_item db_c2 cu2 11 5).2 = db_c2 ∧
    (api.delete_cart_item db_c2 cu2 11).1.isErr = true ∧
    (api.delete_cart_item db_c2 cu2 11).2 = db_c2 ∧
    (api.remove_wishlist_endpoint db_c2 cu2 12).1.isErr = true ∧
    (api.remove_wishlist_endpoint db_c2 cu2 12).2 = db_c2 :=
  ⟨by decide, (c2_error_leaves_state_unchanged db_c2 cu2 11 5 12).1 (by decide),
   by decide, (c2_error_leaves_state_unchanged db_c2 cu2 11 5 12).2.1 (by decide),
   by decide, (c2_error_leaves_state_unchanged db_c2 cu2 11 5 12).2.2 (by decide)⟩

/-- C3: the permitted admin operations on another user's cart and orders do
NOT act on the target user's resources.  In db_c3 user 2 owns cart 20 and
order 31, yet the admin's GET /cart/2 returns the admin's own cart 10 (owner
1) and GET /orders/2 returns the admin's own order 30: the handlers pass
current_user.id to the persistence layer, ignoring the requested user id
after the authorization check. -/
theorem c3_admin_ops_act_on_admins_own_resources :
    (api.get_cart db_c3 admin1 2).1 = Resp.ok { id := 10, user_id := 1 } ∧
    crud.get_cart db_c3 2 = some { id := 20, user_id := 2 } ∧
    (api.get_orders db_c3 admin1 2).1 =
      Resp.ok [{ id := 30, user_id := 1, items := [], status := "placed" }] ∧
    crud.get_orders db_c3 2 =
      [{ id := 31, user_id := 2, items := [], status := "placed" }] := by
  decide

/-- C9: POST /products/ stores the new product with seller_id equal to the
requester's id when the requester is a seller and null otherwise, ignoring any
seller_id supplied in the request body. -/
theorem c9_create_product_seller_id (db : DB) (cu : User) (product : ProductBase) :
    ∃ p : Product,
      api.create_product db cu product =
        (Resp.ok p, { db with products := db.products ++ [p], next_id := db.next_id + 1 }) ∧
      p.seller_id = (if cu.role = "seller" then some cu.id else none) ∧
      p.name = product.name ∧ p.price = product.price := by
  by_cases h : cu.role = "seller"
  · refine ⟨{ id := db.next_id, name := product.name, price := product.price,
               category_id := product.category_id, seller_id := some cu.id },
      ?_, ?_, rfl, rfl⟩
    · simp [api.create_product, api.create_product_core, crud.create_product, runRequest, h]
    · simp [h]
  · refine ⟨{ id := db.next_id, name := product.name, price := product.price,
               category_id := product.category_id, seller_id := none },
      ?_, ?_, rfl, rfl⟩
    · simp [api.create_product, api.create_product_core, crud.create_product, runRequest, h]
    · simp [h]

/-- C10: for PUT /users/id and DELETE /users/id the ownership check precedes
the existence lookup: a non-admin requester targeting another id always gets
403, with the state unchanged, whatever the database holds — so two runs
against different states produce the same response. -/
theorem c10_user_403_before_lookup (db db2 : DB) (cu : User) (uid : Nat)
    (upd : UserUpdate) (hrole : cu.role ≠ "admin") (hid : uid ≠ cu.id) :
    api.update_user db cu uid upd =
      (Resp.err 403 "You are not authorized to modify this user", db) ∧
    api.delete_user db cu uid =
      (Resp.err 403 "You are not authorized to delete this user", db) ∧
    (api.update_user db cu uid upd).1 = (api.update_user db2 cu uid upd).1 ∧
    (api.delete_user db cu uid).1 = (api.delete_user db2 cu uid).1 := by
  have h1 : (uid != cu.id) = true := by simp [hid]
  have h2 : (cu.role != "admin") = true := by simp [hrole]
  simp [api.update_user, api.update_user_core, api.delete_user, api.delete_user_core,
    runRequest, h1, h2]

/-- C10 witness: customer 2 targets user id 1 — in the empty state (user 1
does not exist) and in db_c3 (user 1 exists) the responses are the same
403s. -/
theorem c10_witness :
    cu2.role ≠ "admin" ∧ (1 : Nat) ≠ cu2.id ∧
    (api.update_user db0 cu2 1 { email := none, password := none, role := none } =
      (Resp.err 403 "You are not authorized to modify this user", db0) ∧
     api.delete_user db0 cu2 1 =
      (Resp.err 403 "You are not authorized to delete this user", db0) ∧
     (api.update_user db0 cu2 1 { email := none, password := none, role := none }).1 =
       (api.update_user db_c3 cu2 1 { email := none, password := none, role := none }).1 ∧
     (api.delete_user db0 cu2 1).1 = (api.delete_user db_c3 cu2 1).1) :=
  ⟨by decide, by decide,
   c10_user_403_before_lookup db0 db_c3 cu2 1
     { email := none, password := none, role := none } (by decide) (by decide)⟩

/-- C5: a non-admin requester targeting a user-scoped resource of a different
user gets 403 from every mutating operation: user update and delete, address
creation, cart access and cart-item addition, order creation, and — when the
targeted row exists and is owned by someone else — cart-item update, cart-item
delete and wishlist delete. -/
theorem c5_non_owner_mutation_403 (db : DB) (cu : User) (uid : Nat)
    (upd : UserUpdate) (addr : AddressCreate) (itm : CartItemBase)
    (cid q wid : Nat) (item : CartItem) (cart : Cart) (w : WishlistEntry)
    (hrole : cu.role ≠ "admin") (hid : uid ≠ cu.id) :
    (api.update_user db cu uid upd).1 =
      Resp.err 403 "You are not authorized to modify this user" ∧
    (api.delete_user db cu uid).1 =
      Resp.err 403 "You are not authorized to delete this user" ∧
    (api.add_address db cu uid addr).1 =
      Resp.err 403 "You are not authorized for this action" ∧
    (api.get_cart db cu uid).1 =
      Resp.err 403 "You are not authorized to access this cart" ∧
    (api.add_item_to_cart db cu uid itm).1 =
      Resp.err 403 "You are not authorized to access this cart" ∧
    (api.create_order_from_cart db cu uid).1 = Resp.err 403 "Not authorized" ∧
    (db.cart_items.find? (fun i => i.id == cid) = some item →
      db.carts.find? (fun c => c.id == item.cart_id) = some cart →
      cart.user_id ≠ cu.id →
      (api.update_cart_item db cu cid q).1 =
        Resp.err 403 "Not allowed to modify this item" ∧
      (api.delete_cart_item db cu cid).1 =
        Resp.err 403 "Not allowed to delete this item") ∧
    (db.wishlist.find? (fun v => v.id == wid) = some w →
      w.user_id ≠ cu.id →
      (api.remove_wishlist_endpoint db cu wid).1 = Resp.err 403 "Not allowed") := by
  have h1 : (uid != cu.id) = true := by simp [hid]
  have h1x : (cu.id != uid) = true := by simp [Ne.symm hid]
  have h2 : (cu.role != "admin") = true := by simp [hrole]
  refine ⟨?_, ?_, ?_, ?_, ?_, ?_, ?_, ?_⟩
  · simp [api.update_user, api.update_user_core, runRequest, h1, h2]
  · simp [api.delete_user, api.delete_user_core, runRequest, h1, h2]
  · simp [api.add_address, api.add_address_core, runRequest, h1, h2]
  · simp [api.get_cart, api.get_cart_core, runRequest, h1x, h2]
  · simp [api.add_item_to_cart, api.add_item_to_cart_core, runRequest, h1x, h2]
  · simp [api.create_order_from_cart, api.create_order_from_cart_core, runRequest, h1, h2]
  · intro hfind hcart hne
    have hno : (some cart.user_id != some cu.id) = true := by simp [hne]
    constructor
    · simp [api.update_cart_item, api.update_cart_item_core, crud.update_cart_item,
        runRequest, hfind, cart_owner, hcart, hno, h2]
    · simp [api.delete_cart_item, api.delete_cart_item_core, crud.remove_cart_item,
        runRequest, hfind, cart_owner, hcart, hno, h2]
  · intro hfind hne
    have hno : (w.user_id != cu.id) = true := by simp [hne]
    simp [api.remove_wishlist_endpoint, api.remove_wishlist_endpoint_core,
      crud.remove_from_wishlist, runRequest, hfind, hno, h2]

/-- C5 witness: customer 2 targets user 1's record, address list, cart, cart
item 11 and wishlist entry 12 in db_c2; every mutating call answers 403. -/
theorem c5_witness :
    (api.update_user db_c2 cu2 1 { email := none, password := none, role := none }).1 =
      Resp.err 403 "You are not authorized to modify this user" ∧
    (api.delete_user db_c2 cu2 1).1 =
      Resp.err 403 "You are not authorized to delete this user" ∧
    (api.add_address db_c2 cu2 1 { street := "s" }).1 =
      Resp.err 403 "You are not authorized for this action" ∧
    (api.get_cart db_c2 cu2 1).1 =
      Resp.err 403 "You are not authorized to access this cart" ∧
    (api.add_item_to_cart db_c2 cu2 1 { product_id := 7, quantity := 1 }).1 =
      Resp.err 403 "You are not authorized to access this cart" ∧
    (api.create_order_from_cart db_c2 cu2 1).1 = Resp.err 403 "Not authorized" ∧
    (api.update_cart_item db_c2 cu2 11 5).1 =
      Resp.err 403 "Not allowed to modify this item" ∧
    (api.delete_cart_item db_c2 cu2 11).1 =
      Resp.err 403 "Not allowed to delete this item" ∧
    (api.remove_wishlist_endpoint db_c2 cu2 12).1 = Resp.err 403 "Not allowed" := by
  have h := c5_non_owner_mutation_403 db_c2 cu2 1
    { email := none, password := none, role := none } { street := "s" }
    { product_id := 7, quantity := 1 } 11 5 12
    { id := 11, cart_id := 10, product_id := 7, quantity := 2 }
    { id := 10, user_id := 1 } { id := 12, user_id := 1, product_id := 7 }
    (by decide) (by decide)
  have h7 := h.2.2.2.2.2.2.1 (by decide) (by decide) (by decide)
  exact ⟨h.1, h.2.1, h.2.2.1, h.2.2.2.1, h.2.2.2.2.1, h.2.2.2.2.2.1,
    h7.1, h7.2, h.2.2.2.2.2.2.2 (by decide) (by decide)⟩

/-- C6: a seller updating or deleting a product that is absent or that belongs
to a different seller always gets the one 404 response, with the state
unchanged — the two cases are indistinguishable and never answered with
403. -/
theorem c6_seller_foreign_product_404 (db : DB) (s : User) (pid : Nat)
    (upd : ProductBase) (hrole : s.role = "seller")
    (hforeign : ∀ p ∈ db.products, p.id = pid → p.seller_id ≠ some s.id) :
    api.seller_update_product db s pid upd =
      (Resp.err 404 "Product not found or not authorized", db) ∧
    api.seller_delete_product db s pid =
      (Resp.err 404 "Product not found or not authorized", db) := by
  have hup : db.products.find? (fun p => p.id == pid && p.seller_id == some s.id) = none := by
    rw [List.find?_eq_none]
    intro p hp
    simp only [Bool.and_eq_true, beq_iff_eq, not_and]
    intro hpid
    simpa using hforeign p hp hpid
  constructor
  · simp only [api.seller_update_product, api.seller_update_product_core,
      crud.update_product, hrole]
    simp [runRequest, hup]
  · simp only [api.seller_delete_product, api.seller_delete_product_core,
      crud.delete_product, hrole]
    simp [runRequest, hup]

/-- A state holding one product, id 50, owned by seller 1. -/
def db_c6 : DB :=
  { users := [], addresses := [],
    products := [{ id := 50, name := "x", price := 5, category_id := none,
                   seller_id := some 1 }],
    carts := [], cart_items := [], orders := [], wishlist := [], next_id := 60 }

/-- A concrete seller user distinct from seller 1. -/
def seller2 : User := { id := 2, email := "s2@x.com", password := "h", role := "seller" }

/-- C6 witness: seller 2 updates and deletes product 50 (owned by seller 1)
and product 99 (absent); all four calls answer the same 404, so the foreign
and absent cases are indistinguishable. -/
theorem c6_witness :
    api.seller_update_product db_c6 seller2 50
        { name := "y", price := 6, category_id := none, seller_id := none } =
      (Resp.err 404 "Product not found or not authorized", db_c6) ∧
    api.seller_delete_product db_c6 seller2 50 =
      (Resp.err 404 "Product not found or not authorized", db_c6) ∧
    api.seller_update_product db_c6 seller2 99
        { name := "y", price := 6, category_id := none, seller_id := none } =
      (Resp.err 404 "Product not found or not authorized", db_c6) ∧
    api.seller_delete_product db_c6 seller2 99 =
      (Resp.err 404 "Product not found or not authorized", db_c6) := by
  have hown := c6_seller_foreign_product_404 db_c6 seller2 50
    { name := "y", price := 6, category_id := none, seller_id := none }
    (by decide) (by decide)
  have habs := c6_seller_foreign_product_404 db_c6 seller2 99
    { name := "y", price := 6, category_id := none, seller_id := none }
    (by decide) (by decide)
  exact ⟨hown.1, hown.2, habs.1, habs.2⟩

/-- C7: POST /users/ with an already registered email answers 400 and leaves
the stored users unchanged; with a fresh email it appends exactly one user
whose role is customer and whose password is the hash of the supplied
password. -/
theorem c7_create_user_unique_email (db : DB) (u : UserCreate) :
    ((∃ w ∈ db.users, w.email = u.email) →
      api.create_user db u = (Resp.err 400 "Email already registered", db)) ∧
    ((∀ w ∈ db.users, w.email ≠ u.email) →
      ∃ nu : User,
        api.create_user db u =
          (Resp.ok nu, { db with users := db.users ++ [nu], next_id := db.next_id + 1 }) ∧
        nu.role = "customer" ∧ nu.email = u.email ∧
        nu.password = crud.hash_password u.password) := by
  constructor
  · rintro ⟨w, hw, he⟩
    have hsome : (db.users.find? (fun v => v.email == u.email)).isSome := by
      rw [List.find?_isSome]
      exact ⟨w, hw, by simp [he]⟩
    obtain ⟨x, hx⟩ := Option.isSome_iff_exists.mp hsome
    simp [api.create_user, api.create_user_core, crud.get_user_by_email, runRequest, hx]
  · intro hall
    have hnone : crud.get_user_by_email db u.email = none := by
      rw [crud.get_user_by_email, List.find?_eq_none]
      intro v hv
      simp [hall v hv]
    refine ⟨{ id := db.next_id, email := u.email,
               password := crud.hash_password u.password, role := "customer" },
      ?_, rfl, rfl, rfl⟩
    simp [api.create_user, api.create_user_core, crud.create_user, runRequest, hnone]

/-- C7 witness: registering the email of user 1 of db_c2 again answers 400
with the state unchanged, and registering a fresh email appends one customer
with a hashed password. -/
theorem c7_witness :
    api.create_user db_c2 { email := "a@x.com", password := "p" } =
      (Resp.err 400 "Email already registered", db_c2) ∧
    (∃ nu : User,
      api.create_user db_c2 { email := "new@x.com", password := "p" } =
        (Resp.ok nu,
          { db_c2 with users := db_c2.users ++ [nu], next_id := db_c2.next_id + 1 }) ∧
      nu.role = "customer" ∧ nu.email = "new@x.com" ∧
      nu.password = crud.hash_password "p") := by
  constructor
  · exact (c7_create_user_unique_email db_c2 { email := "a@x.com", password := "p" }).1
      ⟨admin1, by decide, by decide⟩
  · exact (c7_create_user_unique_email db_c2 { email := "new@x.com", password := "p" }).2
      (by decide)

/-- C8: POST /login for the stored user holding an email returns, on the
correct password, a token whose payload user_id, email and role equal the
stored values and whose expiry is 60 minutes (3600 seconds) after issuance;
a wrong password or an unknown email returns 401, always leaving the state
unchanged. -/
theorem c8_login_token (db : DB) (now : Nat) (email pw : String) :
    (∀ u : User, crud.get_user_by_email db email = some u →
      (crud.hash_password pw = u.password →
        api.login db now email pw =
          (Resp.ok { user_id := u.id, email := u.email, role := u.role,
                     expires_at := now + 60 * 60 }, db)) ∧
      (crud.hash_password pw ≠ u.password →
        api.login db now email pw = (Resp.err 401 "Incorrect email or password", db))) ∧
    (crud.get_user_by_email db email = none →
      api.login db now email pw = (Resp.err 401 "Incorrect email or password", db)) := by
  constructor
  · intro u hu
    constructor
    · intro hgood
      simp [api.login, api.login_core, runRequest, hu, crud.verify_password, hgood,
        auth.create_access_token]
    · intro hbad
      have hb : (crud.hash_password pw == u.password) = false := by simp [hbad]
      simp [api.login, api.login_core, runRequest, hu, crud.verify_password, hb]
  · intro hn
    simp [api.login, api.login_core, runRequest, hn]

/-- A state holding one user, id 3, whose stored password is the hash of
pw3. -/
def db_c8 : DB :=
  { users := [{ id := 3, email := "c@x.com", password := crud.hash_password "pw3",
                role := "customer" }],
    addresses := [], products := [], carts := [], cart_items := [], orders := [],
    wishlist := [], next_id := 4 }

/-- C8 witness: the correct password for user 3 yields the token with user 3's
payload and expiry 3600 seconds after issue instant 1000; a wrong password and
an unknown email yield 401. -/
theorem c8_witness :
    api.login db_c8 1000 "c@x.com" "pw3" =
      (Resp.ok { user_id := 3, email := "c@x.com", role := "customer",
                 expires_at := 1000 + 60 * 60 }, db_c8) ∧
    api.login db_c8 1000 "c@x.com" "bad" =
      (Resp.err 401 "Incorrect email or password", db_c8) ∧
    api.login db_c8 1000 "nobody@x.com" "pw3" =
      (Resp.err 401 "Incorrect email or password", db_c8) := by
  have hgood := (c8_login_token db_c8 1000 "c@x.com" "pw3").1
    { id := 3, email := "c@x.com", password := crud.hash_password "pw3",
      role := "customer" } (by decide)
  have hbad := (c8_login_token db_c8 1000 "c@x.com" "bad").1
    { id := 3, email := "c@x.com", password := crud.hash_password "pw3",
      role := "customer" } (by decide)
  exact ⟨hgood.1 (by decide), hbad.2 (by decide),
    (c8_login_token db_c8 1000 "nobody@x.com" "pw3").2 (by decide)⟩

/-- C1 counterexample: in db_c2 user 2 has no cart at all, yet POST /orders/
for user 2 — issued by the admin, which the ownership rule permits — succeeds
instead of failing with 400: the handler converts the cart of
current_user.id, i.e. the admin's own non-empty cart, and the resulting order
belongs to the admin. -/
theorem c1_counterexample :
    crud.get_cart db_c2 2 = none ∧
    (api.create_order_from_cart db_c2 admin1 2).1 =
      Resp.ok { id := 40, user_id := 1,
                items := [{ product_id := 7, quantity := 2 }], status := "placed" } := by
  decide

/-- C1 (amended): when the user posts the order for themselves, a non-empty
cart yields an order snapshotting exactly the cart's items, the cart is
emptied, and the order is appended; an absent or empty cart yields 400 with
the state unchanged. -/
theorem c1_order_snapshot_for_self (db : DB) (u : User) :
    (∀ cart : Cart, crud.get_cart db u.id = some cart →
      db.cart_items.filter (fun i => i.cart_id == cart.id) ≠ [] →
      ∃ o : Order,
        api.create_order_from_cart db u u.id =
          (Resp.ok o,
            { db with orders := db.orders ++ [o],
                      cart_items := db.cart_items.filter (fun i => i.cart_id != cart.id),
                      next_id := db.next_id + 1 }) ∧
        o.user_id = u.id ∧
        o.items = (db.cart_items.filter (fun i => i.cart_id == cart.id)).map
          (fun i => { product_id := i.product_id, quantity := i.quantity }) ∧
        ((api.create_order_from_cart db u u.id).2.cart_items.filter
          (fun i => i.cart_id == cart.id)) = []) ∧
    ((crud.get_cart db u.id = none ∨
      ∃ cart : Cart, crud.get_cart db u.id = some cart ∧
        db.cart_items.filter (fun i => i.cart_id == cart.id) = []) →
      api.create_order_from_cart db u u.id = (Resp.err 400 "Cart is empty", db)) := by
  constructor
  · intro cart hcart hne
    have hempty : (db.cart_items.filter (fun i => i.cart_id == cart.id)).isEmpty = false := by
      rw [Bool.eq_false_iff]
      intro hcontra
      exact hne (List.isEmpty_iff.mp hcontra)
    refine ⟨{ id := db.next_id, user_id := u.id,
               items := (db.cart_items.filter (fun i => i.cart_id == cart.id)).map
                 (fun i => { product_id := i.product_id, quantity := i.quantity }),
               status := "placed" }, ?_, rfl, rfl, ?_⟩
    · simp [api.create_order_from_cart, api.create_order_from_cart_core,
        crud.create_order_from_cart_for_user, runRequest, hcart, hempty]
    · simp only [api.create_order_from_cart, api.create_order_from_cart_core,
        crud.create_order_from_cart_for_user, runRequest, hcart, hempty]
      simp only [bne_self_eq_false, Bool.false_and, Bool.if_false_left]
      rw [List.filter_eq_nil_iff]
      intro a ha
      have hmem := (List.mem_filter.mp ha).2
      simp only [bne_iff_ne, ne_eq] at hmem
      simp [hmem]
  · intro hcase
    rcases hcase with hnone | ⟨cart, hcart, hempty⟩
    · simp [api.create_order_from_cart, api.create_order_from_cart_core,
        crud.create_order_from_cart_for_user, runRequest, hnone]
    · have he : (db.cart_items.filter (fun i => i.cart_id == cart.id)).isEmpty = true := by
        rw [hempty]; rfl
      simp [api.create_order_from_cart, api.create_order_from_cart_core,
        crud.create_order_from_cart_for_user, runRequest, hcart, he]

/-- C1 witness: in db_c2 the admin (cart 10 holding item 11) posts an order
for themselves: the order snapshots the single line item and the cart is
emptied; customer 2 (no cart) posting for themselves gets 400 with the state
unchanged. -/
theorem c1_witness :
    (crud.get_cart db_c2 admin1.id = some { id := 10, user_id := 1 } ∧
     db_c2.cart_items.filter (fun i => i.cart_id == 10) ≠ []) ∧
    (∃ o : Order,
      api.create_order_from_cart db_c2 admin1 admin1.id =
        (Resp.ok o,
          { db_c2 with orders := db_c2.orders ++ [o],
                       cart_items := db_c2.cart_items.filter (fun i => i.cart_id != 10),
                       next_id := db_c2.next_id + 1 }) ∧
      o.user_id = admin1.id ∧
      o.items = (db_c2.cart_items.filter (fun i => i.cart_id == 10)).map
        (fun i => { product_id := i.product_id, quantity := i.quantity }) ∧
      ((api.create_order_from_cart db_c2 admin1 admin1.id).2.cart_items.filter
        (fun i => i.cart_id == 10)) = []) ∧
    api.create_order_from_cart db_c2 cu2 cu2.id = (Resp.err 400 "Cart is empty", db_c2) :=
  ⟨⟨by decide, by decide⟩,
   (c1_order_snapshot_for_self db_c2 admin1).1 { id := 10, user_id := 1 }
     (by decide) (by decide),
   (c1_order_snapshot_for_self db_c2 cu2).2 (Or.inl (by decide))⟩

/-
Claim C4: cart-item accumulation.
-/

/-- The (cart, product) key of a cart item row. -/
def key (i : CartItem) : Nat × Nat := (i.cart_id, i.product_id)

/-- The number of cart item rows for one (cart, product) pair. -/
def row_count (items : List CartItem) (cart_id product_id : Nat) : Nat :=
  (items.filter (fun i => i.cart_id == cart_id && i.product_id == product_id)).length

/-- The total quantity held in the rows of one (cart, product) pair. -/
def qty_sum (items : List CartItem) (cart_id product_id : Nat) : Nat :=
  ((items.filter (fun i => i.cart_id == cart_id && i.product_id == product_id)).map
    (fun i => i.quantity)).sum

/-- At most one line item per (cart, product) pair: the keys of the rows are
pairwise distinct. -/
def one_row_per_pair (items : List CartItem) : Prop :=
  items.Pairwise (fun a b => ¬(a.cart_id = b.cart_id ∧ a.product_id = b.product_id))

/-- A sequence of add-item operations, each a cart id with an item body, run
through the summing crud operation. -/
def run_adds (db : DB) (ops : List (Nat × CartItemBase)) : DB :=
  ops.foldl (fun d op => (crud.add_cart_item d op.1 op.2).2) db

instance (items : List CartItem) : Decidable (one_row_per_pair items) := by
  unfold one_row_per_pair
  infer_instance

/-- Raising the quantity of the first matching row does not change the keys of
the rows. -/
theorem map_key_bump_first (c p q : Nat) (l : List CartItem) :
    (crud.bump_first c p q l).map key = l.map key := by
  induction l with
  | nil => rfl
  | cons i rest ih =>
    by_cases h : (i.cart_id == c && i.product_id == p) = true
    · simp [crud.bump_first, h, key]
    · simp [crud.bump_first, h, key, ih]

/-- The pairwise-distinct-keys invariant is exactly distinctness of the key
list. -/
theorem one_row_per_pair_iff (l : List CartItem) :
    one_row_per_pair l ↔ (l.map key).Nodup := by
  unfold one_row_per_pair
  rw [List.Nodup, List.pairwise_map]
  constructor
  · intro h
    refine h.imp ?_
    intro a b hab
    simp only [key, ne_eq, Prod.mk.injEq]
    exact fun hc => hab hc
  · intro h
    refine h.imp ?_
    intro a b hab
    simp only [key, ne_eq, Prod.mk.injEq] at hab
    exact fun hc => hab hc

/-- With pairwise distinct keys, every (cart, product) pair holds at most one
row. -/
theorem row_count_le_one (l : List CartItem) (h : one_row_per_pair l) (c p : Nat) :
    row_count l c p ≤ 1 := by
  unfold row_count
  have hpw : (l.filter (fun i => i.cart_id == c && i.product_id == p)).Pairwise
      (fun a b => ¬(a.cart_id = b.cart_id ∧ a.product_id = b.product_id)) :=
    List.Pairwise.sublist (List.filter_sublist l) h
  cases hf : l.filter (fun i => i.cart_id == c && i.product_id == p) with
  | nil => simp [hf]
  | cons x t =>
    cases t with
    | nil => simp [hf]
    | cons y rest =>
      exfalso
      rw [hf] at hpw
      have hxy := (List.pairwise_cons.mp hpw).1 y (List.mem_cons_self y rest)
      have hxmem : x ∈ l.filter (fun i => i.cart_id == c && i.product_id == p) := by
        rw [hf]; exact List.mem_cons_self x (y :: rest)
      have hymem : y ∈ l.filter (fun i => i.cart_id == c && i.product_id == p) := by
        rw [hf]; simp
      have hx := List.of_mem_filter hxmem
      have hy := List.of_mem_filter hymem
      simp only [Bool.and_eq_true, beq_iff_eq] at hx hy
      exact hxy ⟨hx.1.trans hy.1.symm, hx.2.trans hy.2.symm⟩

/-- Raising the quantity of the first row matching the pair raises the pair's
total quantity by that amount, provided such a row exists. -/
theorem qty_sum_bump_first (c p q : Nat) (l : List CartItem)
    (hmem : l.find? (fun i => i.cart_id == c && i.product_id == p) ≠ none) :
    qty_sum (crud.bump_first c p q l) c p = qty_sum l c p + q := by
  induction l with
  | nil => simp [List.find?] at hmem
  | cons i rest ih =>
    by_cases h : (i.cart_id == c && i.product_id == p) = true
    · simp [crud.bump_first, qty_sum, List.filter_cons, h]
      all_goals omega
    · have hmem2 : rest.find? (fun i => i.cart_id == c && i.product_id == p) ≠ none := by
        rw [List.find?_cons] at hmem
        simpa [h] using hmem
      have hrec := ih hmem2
      rw [Bool.not_eq_true] at h
      simp only [qty_sum, List.filter_cons] at hrec ⊢
      simp [crud.bump_first, h, hrec]

/-- Adding an item preserves pairwise distinct keys: an existing pair is
summed in place, a new pair appends the one row for a key not yet present. -/
theorem add_cart_item_preserves_one_row (db : DB) (c : Nat) (itm : CartItemBase)
    (h : one_row_per_pair db.cart_items) :
    one_row_per_pair (crud.add_cart_item db c itm).2.cart_items := by
  cases hfind : db.cart_items.find?
      (fun i => i.cart_id == c && i.product_id == itm.product_id) with
  | some existing =>
    simp only [crud.add_cart_item, hfind]
    rw [one_row_per_pair_iff, map_key_bump_first, ← one_row_per_pair_iff]
    exact h
  | none =>
    simp only [crud.add_cart_item, hfind]
    have hall := List.find?_eq_none.mp hfind
    rw [one_row_per_pair_iff, List.map_append, List.nodup_append]
    refine ⟨(one_row_per_pair_iff db.cart_items).mp h, by simp, ?_⟩
    intro a ha hb
    simp only [List.map_cons, List.map_nil, List.mem_singleton] at hb
    obtain ⟨i, hi, hkey⟩ := List.mem_map.mp ha
    have hni := hall i hi
    simp only [Bool.and_eq_true, beq_iff_eq, not_and] at hni
    rw [hb] at hkey
    simp only [key] at hkey
    have h1 : i.cart_id = c := congrArg Prod.fst hkey
    have h2 : i.product_id = itm.product_id := congrArg Prod.snd hkey
    exact hni h1 h2

/-- Any sequence of add-item operations preserves pairwise distinct keys. -/
theorem run_adds_preserves_one_row (ops : List (Nat × CartItemBase)) (db : DB)
    (h : one_row_per_pair db.cart_items) :
    one_row_per_pair (run_adds db ops).cart_items := by
  induction ops generalizing db with
  | nil => exact h
  | cons op rest ih =>
    exact ih (crud.add_cart_item db op.1 op.2).2
      (add_cart_item_preserves_one_row db op.1 op.2 h)

/-- Adding an item always raises the pair's total quantity by the added
amount: in place when the pair already has a row, by the new row
otherwise. -/
theorem qty_sum_add_cart_item (db : DB) (c : Nat) (itm : CartItemBase) :
    qty_sum (crud.add_cart_item db c itm).2.cart_items c itm.product_id
      = qty_sum db.cart_items c itm.product_id + itm.quantity := by
  cases hfind : db.cart_items.find?
      (fun i => i.cart_id == c && i.product_id == itm.product_id) with
  | some existing =>
    simp only [crud.add_cart_item, hfind]
    exact qty_sum_bump_first c itm.product_id itm.quantity db.cart_items
      (by rw [hfind]; exact fun hx => Option.noConfusion hx)
  | none =>
    simp only [crud.add_cart_item, hfind]
    have h0 : db.cart_items.filter
        (fun i => i.cart_id == c && i.product_id == itm.product_id) = [] := by
      rw [List.filter_eq_nil_iff]
      exact List.find?_eq_none.mp hfind
    simp [qty_sum, List.filter_append, h0, List.filter_cons]

/-- C4: adding the same product to a cart again sums the quantity into the
existing line item instead of creating a second row: after any sequence of
add-item operations the rows keep pairwise distinct (cart, product) keys, so
every pair holds at most one row, and a single add raises the pair's total
quantity by exactly the added amount. -/
theorem c4_add_item_sums_single_row (db : DB) (ops : List (Nat × CartItemBase))
    (c : Nat) (itm : CartItemBase) (h : one_row_per_pair db.cart_items) :
    one_row_per_pair (run_adds db ops).cart_items ∧
    (∀ c' p', row_count (run_adds db ops).cart_items c' p' ≤ 1) ∧
    qty_sum (crud.add_cart_item db c itm).2.cart_items c itm.product_id
      = qty_sum db.cart_items c itm.product_id + itm.quantity :=
  ⟨run_adds_preserves_one_row ops db h,
   fun c' p' => row_count_le_one _ (run_adds_preserves_one_row ops db h) c' p',
   qty_sum_add_cart_item db c itm⟩

/-- C4 witness: db_c2 already holds one row for pair (10, 7) with quantity 2;
adding product 7 with quantity 3 again keeps a single row for the pair and
raises its quantity to 5. -/
theorem c4_witness :
    one_row_per_pair db_c2.cart_items ∧
    one_row_per_pair
      (run_adds db_c2 [(10, { product_id := 7, quantity := 3 })]).cart_items ∧
    row_count (run_adds db_c2 [(10, { product_id := 7, quantity := 3 })]).cart_items 10 7 ≤ 1 ∧
    qty_sum (crud.add_cart_item db_c2 10 { product_id := 7, quantity := 3 }).2.cart_items 10 7
      = qty_sum db_c2.cart_items 10 7 + 3 := by
  have h := c4_add_item_sums_single_row db_c2 [(10, { product_id := 7, quantity := 3 })]
    10 { product_id := 7, quantity := 3 } (by decide)
  exact ⟨by decide, h.1, h.2.1 10 7, h.2.2⟩

end ECom
